import Mathlib

/-!
Verification of the sensor-data ingestion and daily-aggregation engine of the
study-backend repository (`study_framework_core/core/processing_scripts.py` and
`study_framework_core/core/handlers.py`).

The Python code is shallowly embedded: real numbers (Python floats) are
modelled as `ℚ`, fallible Python code (code whose exceptions are caught by a
`try`/`except`) is modelled with `Option`, and the MongoDB document store is
modelled as explicit lists of documents.  Each definition cites the source
function and lines it embeds.
-/

namespace StudyBackend

/-! ### Timestamp normalizer

`DataProcessor._handle_timestamp_format` (processing_scripts.py lines
1068-1074) and the identical `handle_timestamp_format` (handlers.py lines
241-247):

```python
str_time = str(timestamp)
if len(str_time.split(".")[0]) == 10:
    return float(timestamp)
else:
    return float(timestamp) / 1000
```

For a nonnegative numeric input `t` (all timestamps in this system are
nonnegative epoch values), `str(t).split(".")[0]` is the decimal
representation of the integer portion `⌊t⌋`, so its length is the number of
decimal digits of `⌊t⌋` (with `0` printed as one digit `"0"`).  `digitLen`
computes that length; the fuel argument makes the recursion structural (the
fuel never runs out because `n / 10 < n` for `n ≥ 10`).
-/

def digitLenAux : ℕ → ℕ → ℕ
  | 0, _ => 1
  | fuel + 1, n => if n < 10 then 1 else digitLenAux fuel (n / 10) + 1

/-- Number of characters of `str(n)` for a natural number `n`. -/
def digitLen (n : ℕ) : ℕ := digitLenAux n n

/-- Embedding of `_handle_timestamp_format` / `handle_timestamp_format` for
nonnegative numeric inputs: `⌊t⌋.toNat` is the integer portion of `str(t)`. -/
def handle_timestamp_format (t : ℚ) : ℚ :=
  if digitLen (Int.toNat ⌊t⌋) = 10 then t else t / 1000

/-! ### Location duration of the daily aggregator

`DataProcessor._get_location_info` (processing_scripts.py lines 1607-1640)
computes, over the timestamp-sorted in-window GPS fixes:

```python
gps_count = 0
previous_time = 0
gps_minutes = 0
for gps in gps_records:
    if gps['timestamp'] - previous_time < 15 * 60:
        gps_minutes += float(gps['timestamp'] - previous_time) / 60
        gps_count += 1
    previous_time = gps['timestamp']
duration_hours = float(gps_minutes) / 60
```

`gpsMinutesLoop prev acc ts` is that loop (accumulator in minutes), and
`locationDurationHours` is the returned `duration_hours` (the source returns
`0.0` when there are no GPS records, which agrees with the fold on `[]`).
-/

def gpsMinutesLoop : ℚ → ℚ → List ℚ → ℚ
  | _, acc, [] => acc
  | prev, acc, t :: rest =>
      gpsMinutesLoop t (if t - prev < 15 * 60 then acc + (t - prev) / 60 else acc) rest

def locationDurationHours (ts : List ℚ) : ℚ :=
  gpsMinutesLoop 0 0 ts / 60

/-- Specification-side quantity of claim C2: the sum (in seconds) of the
inter-fix deltas between consecutive fixes, a delta being included only when
it is strictly under 15 minutes. -/
def interFixDurationSum : List ℚ → ℚ
  | [] => 0
  | [_] => 0
  | a :: b :: rest => (if b - a < 15 * 60 then b - a else 0) + interFixDurationSum (b :: rest)

/-! ### Batch writer flush

`DataProcessor.flush_records` (processing_scripts.py lines 217-232):

```python
try:
    if collection:
        collections_to_flush = [collection]
    else:
        collections_to_flush = list(self.records.keys())
    for coll in collections_to_flush:
        if coll in self.records and self.records[coll]:
            self.db[coll].insert_many(self.records[coll], ordered=False)
            self.logger.info(...)
            self.records[coll].clear()
except Exception as e:
    self.logger.error(f"Error flushing records to {collection}: {e}")
```

The `try`/`except` wraps the whole `for` loop.  The buffer dictionary is
modelled as an association list in iteration order; records are opaque
naturals; `insertOk c` tells whether `insert_many` on collection `c` raises.
`written` collects the successful bulk inserts, `buffers` is the state of
`self.records` afterwards (a flushed buffer is cleared in place), and
`errorLogged` records whether the `except` branch ran.  An exception from
`insert_many` is caught outside the loop, so it ends the whole flush: the
failing collection and everything after it keep their buffers.
-/

structure FlushOutcome where
  written : List (String × List ℕ)
  buffers : List (String × List ℕ)
  errorLogged : Bool
deriving DecidableEq

def flushLoop (insertOk : String → Bool) : List (String × List ℕ) → FlushOutcome
  | [] => ⟨[], [], false⟩
  | (c, rs) :: rest =>
      if rs.isEmpty then
        let o := flushLoop insertOk rest
        ⟨o.written, (c, rs) :: o.buffers, o.errorLogged⟩
      else if insertOk c then
        let o := flushLoop insertOk rest
        ⟨(c, rs) :: o.written, (c, []) :: o.buffers, o.errorLogged⟩
      else
        ⟨[], (c, rs) :: rest, true⟩

/-- `flush_records(None)`: flush over all buffered collections. -/
def flush_records (insertOk : String → Bool) (buffers : List (String × List ℕ)) : FlushOutcome :=
  flushLoop insertOk buffers

/-! ### Garmin FIT file processing

`DataProcessor.process_garmin_fit_file` (processing_scripts.py lines 249-350)
invokes the external `fit-processing-cli.jar` decoder and returns `False`
when the JAR is missing, the input file is missing, the decoder exits with a
non-zero return code, or loading the produced CSV directory fails; it returns
`True` only when the decoder exits 0 and `_process_garmin_csv_files`
succeeds.  `_process_garmin_csv_files` (lines 352-468) returns `False` when
the expected CSV output directory is missing or is not a directory, and
otherwise `True` (every per-file read error and per-collection insert error
inside it is caught and logged, and a cleanup failure is caught as well).
`DataProcessor.process_garmin_data` (lines 551-565) archives a FIT file if
and only if `process_garmin_fit_file` returned `True`:

```python
success = self.process_garmin_fit_file(user, str(fit_file))
if success:
    processed_count += 1
    self.archive_file(user, str(fit_file))
```
-/

structure FitEnv where
  jarExists : Bool
  inputExists : Bool
  returncode : ℤ
  csvDirExists : Bool
  csvDirIsDir : Bool
deriving DecidableEq

def process_garmin_csv_files (env : FitEnv) : Bool :=
  if !env.csvDirExists then false
  else if !env.csvDirIsDir then false
  else true

def process_garmin_fit_file (env : FitEnv) : Bool :=
  if !env.jarExists then false
  else if !env.inputExists then false
  else if env.returncode = 0 then process_garmin_csv_files env
  else false

/-- Whether `process_garmin_data` invokes `archive_file` on the FIT file. -/
def garmin_file_archived (env : FitEnv) : Bool :=
  process_garmin_fit_file env

/-! ### File archiving and upload saving

`handlers.save_file` (handlers.py lines 157-180) saves an uploaded file and,
when the destination name already exists, appends a `.duplicate` suffix:

```python
full_path = os.path.join(directory, filename)
if os.path.isfile(full_path):
    new_full_path = os.path.join(directory, filename+'.duplicate')
    full_path = new_full_path
file.save(full_path)
```

`DataProcessor.archive_file` (processing_scripts.py lines 234-247) moves a
processed file with `shutil.move(file_path, archive_dir / file_name)` and
performs no existence check at the destination; `shutil.move` replaces an
existing regular file at the destination path.
-/

def save_file_dest (fileExists : String → Bool) (directory filename : String) : String :=
  let fullPath := directory ++ "/" ++ filename
  if fileExists fullPath then directory ++ "/" ++ (filename ++ ".duplicate") else fullPath

def archive_file_dest ( _fileExists : String → Bool) (archiveDir fileName : String) : String :=
  archiveDir ++ "/" ++ fileName

/-- `shutil.move` replaces an existing regular file at the destination. -/
def move_replaces_existing (fileExists : String → Bool) (dest : String) : Bool :=
  fileExists dest

/-! ### Garmin wear / monitoring-on durations

`DataProcessor._get_garmin_info` (processing_scripts.py lines 1668-1699):

```python
garmin_hr_records = list(self.db[GARMIN_HR].find({
    'uid': uid, 'timestamp': {'$gte': start_timestamp, '$lt': end_timestamp}}))
garmin_hr_count = sum(1 for record in garmin_hr_records
                      if record.get('heart_rate', 0) > 0)
garmin_stress_count = self.db[GARMIN_STRESS].count_documents({
    'uid': uid, 'timestamp': {'$gte': start_timestamp, '$lt': end_timestamp}})
garmin_wear_duration = float(garmin_hr_count) / (6 * 60)
garmin_on_duration = float(garmin_stress_count) / (6 * 60)
```

The two collections are modelled as lists of records; `heart_rate` is an
`Option` because `record.get('heart_rate', 0)` defaults a missing field to 0.
-/

structure HRRec where
  uid : String
  timestamp : ℚ
  heart_rate : Option ℚ
deriving DecidableEq

structure StressRec where
  uid : String
  timestamp : ℚ
deriving DecidableEq

/-- The Mongo window filter `{'uid': uid, 'timestamp': {'$gte': s, '$lt': e}}`. -/
def hrInWindow (uid : String) (s e : ℚ) (r : HRRec) : Bool :=
  r.uid == uid && decide (s ≤ r.timestamp) && decide (r.timestamp < e)

def stressInWindow (uid : String) (s e : ℚ) (r : StressRec) : Bool :=
  r.uid == uid && decide (s ≤ r.timestamp) && decide (r.timestamp < e)

def get_garmin_info (hr : List HRRec) (stress : List StressRec)
    (uid : String) (s e : ℚ) : ℚ × ℚ :=
  let hrRecords := hr.filter (hrInWindow uid s e)
  let hrCount := (hrRecords.filter (fun r => decide (0 < r.heart_rate.getD 0))).length
  let stressCount := (stress.filter (stressInWindow uid s e)).length
  ((hrCount : ℚ) / (6 * 60), (stressCount : ℚ) / (6 * 60))

/-! ### Daily summary generation and upsert

`DataProcessor._generate_user_daily_summary` (processing_scripts.py lines
1566-1605) builds the summary document

```python
summary = {
    'uid': uid, 'date': start_timestamp, 'date_str': ...,
    'location': {'distance_traveled': ..., 'duration_hours': ...},
    'garmin_wear_duration': ..., 'garmin_on_duration': ...,
    'ema': ..., 'generated_at': ...}
self.db[DAILY_SUMMARY].update_one(
    {'uid': uid, 'date': start_timestamp}, {'$set': summary}, upsert=True)
```

Mongo documents are modelled as association lists of string keys.
`update_one` with filter `{'uid', 'date'}` updates the first matching
document; `$set` replaces each top-level key of the update document in the
stored document (keeping any other keys); with `upsert=True` and no match it
inserts a document made of the filter's equality fields with the `$set`
fields applied.  `init_collections` (lines 187-190) creates a unique index on
`(uid, date)`, so a store never holds two documents for the same key.
-/

inductive MVal where
  | mstr (s : String)
  | mnum (q : ℚ)
  | mdoc (fields : List (String × MVal))

abbrev MDoc := List (String × MVal)

def lookupM : MDoc → String → Option MVal
  | [], _ => none
  | (k, v) :: rest, key => if k = key then some v else lookupM rest key

def isStrVal : Option MVal → String → Bool
  | some (MVal.mstr t), s => t == s
  | _, _ => false

def isNumVal : Option MVal → ℚ → Bool
  | some (MVal.mnum t), q => t == q
  | _, _ => false

/-- The Mongo equality filter `{'uid': uid, 'date': date}`. -/
def matchesKey (uid : String) (date : ℚ) (d : MDoc) : Bool :=
  isStrVal (lookupM d "uid") uid && isNumVal (lookupM d "date") date

/-- `$set` of a single top-level key: replace its value in place, or append. -/
def setKey : MDoc → String → MVal → MDoc
  | [], k, v => [(k, v)]
  | (k0, v0) :: rest, k, v =>
      if k0 = k then (k, v) :: rest else (k0, v0) :: setKey rest k v

/-- `$set` of a whole update document. -/
def setFields (old upd : MDoc) : MDoc :=
  upd.foldl (fun acc kv => setKey acc kv.1 kv.2) old

/-- `update_one({'uid': uid, 'date': date}, {'$set': upd}, upsert=True)`. -/
def update_one_upsert (uid : String) (date : ℚ) (upd : MDoc) : List MDoc → List MDoc
  | [] => [setFields [("uid", MVal.mstr uid), ("date", MVal.mnum date)] upd]
  | d :: rest =>
      if matchesKey uid date d then setFields d upd :: rest
      else d :: update_one_upsert uid date upd rest

/-- The summary document built by `_generate_user_daily_summary`; the
computed metrics (distance, duration, wear, monitoring-on, EMA info,
generation time) are parameters standing for one computation's results. -/
def mk_daily_summary (uid : String) (startTs : ℚ) (dateStr : String)
    (dist dur wear onDur : ℚ) (ema : MDoc) (genAt : ℚ) : MDoc :=
  [("uid", MVal.mstr uid), ("date", MVal.mnum startTs), ("date_str", MVal.mstr dateStr),
   ("location", MVal.mdoc
     [("distance_traveled", MVal.mnum dist), ("duration_hours", MVal.mnum dur)]),
   ("garmin_wear_duration", MVal.mnum wear), ("garmin_on_duration", MVal.mnum onDur),
   ("ema", MVal.mdoc ema), ("generated_at", MVal.mnum genAt)]

/-- One run of `_generate_user_daily_summary` against the summary store. -/
def generate_user_daily_summary (store : List MDoc) (uid : String) (startTs : ℚ)
    (dateStr : String) (dist dur wear onDur : ℚ) (ema : MDoc) (genAt : ℚ) : List MDoc :=
  update_one_upsert uid startTs
    (mk_daily_summary uid startTs dateStr dist dur wear onDur ema genAt) store

/-! ### Event classifier / dispatcher

`DataProcessor._process_ios_database` (processing_scripts.py lines 591-631)
streams SQLite rows shaped `[uuid1, uuid2, timestamp, event_id, event_data]`
and, for each row, runs

```python
if len(row) >= 4:
    event_id = row[3]
    self._process_event_by_id(user, row, event_id)
```

`_process_event_by_id` (lines 633-674) dispatches on the numeric
`event_id`, each branch calling a type-specific handler, with an else branch
for unknown codes; the whole dispatch sits in a `try`/`except` and each
handler has its own `try`/`except`, so nothing escapes a row.

A row is a list of cells; a cell is a number, a string, or a payload blob
(`row[4]`).  A payload blob is modelled at the level the handlers consume
it: a JSON object with number/string fields (`json.loads` succeeds), plain
decodable text (CSV-style payloads), or malformed bytes on which
`.decode("utf-8")`/`json.loads` raises.  Each handler returns `none` when
the source handler would either skip the row (length guard) or catch an
exception (malformed payload, failed field coercion) — in both cases no
record is persisted.  Python coercions on numeric strings
(`float("1.5")`) are modelled only for nonnegative integer decimal strings
(`strToNum`); no claim depends on richer numeric-string parsing.
-/

inductive JVal where
  | jnum (q : ℚ)
  | jstr (s : String)
deriving DecidableEq

inductive Payload where
  | pobj (fields : List (String × JVal))
  | ptext (s : String)
  | pmalformed
deriving DecidableEq

inductive Cell where
  | cnum (q : ℚ)
  | cstr (s : String)
  | cpay (p : Payload)
deriving DecidableEq

abbrev Row := List Cell

/-- Values stored in an emitted record document. -/
inductive RVal where
  | rnum (q : ℚ)
  | rstr (s : String)
  | rcell (c : Cell)
  | rlist (ss : List String)
  | rdoc (fields : List (String × JVal))
deriving DecidableEq

abbrev RDoc := List (String × RVal)

def rowGet (row : Row) (i : ℕ) : Cell := row.getD i (Cell.cnum 0)

/-- `float()` on a raw row value; non-numeric values raise. -/
def cellNum : Cell → Option ℚ
  | .cnum q => some q
  | _ => none

/-- `self._handle_timestamp_format(row[2])` as the handlers call it. -/
def tsOfCell (c : Cell) : Option ℚ :=
  (cellNum c).map handle_timestamp_format

/-- `json.loads(row[4].decode("utf-8")) if isinstance(row[4], bytes) else
row[4]`, followed by the handler's `.get(...)` calls: only a payload that is
a JSON object yields fields; anything else raises in the handler. -/
def jsonLoads : Cell → Option (List (String × JVal))
  | .cpay (.pobj f) => some f
  | _ => none

/-- `row[4].decode("utf-8") if isinstance(row[4], bytes) else str(row[4])`
for the text-payload handlers; malformed bytes raise, everything else
stringifies.  (The exact text of a structured payload is irrelevant to every
claim.) -/
def cellText : Cell → Option String
  | .cstr s => some s
  | .cnum q => some (toString q)
  | .cpay (.ptext s) => some s
  | .cpay (.pobj _) => some ""
  | .cpay .pmalformed => none

def lookupJ : List (String × JVal) → String → Option JVal
  | [], _ => none
  | (k, v) :: rest, key => if k = key then some v else lookupJ rest key

/-- `float(event_data.get(k, 0))` / `int(event_data.get(k, 0))`. -/
def jnumD (fields : List (String × JVal)) (k : String) : Option ℚ :=
  match lookupJ fields k with
  | none => some 0
  | some (.jnum q) => some q
  | some (.jstr _) => none

/-- `str(event_data.get(k, ''))` — total. -/
def jstrD (fields : List (String × JVal)) (k : String) : String :=
  match lookupJ fields k with
  | none => ""
  | some (.jstr s) => s
  | some (.jnum q) => toString q

def rvalOfJ : JVal → RVal
  | .jnum q => RVal.rnum q
  | .jstr s => RVal.rstr s

/-- `event_data.get(k, dflt)` stored without coercion — total. -/
def rvalOfJD (fields : List (String × JVal)) (k : String) (dflt : RVal) : RVal :=
  match lookupJ fields k with
  | none => dflt
  | some v => rvalOfJ v

/-- An optional `int(...)`-coerced field (`if k in event_data: int(get(k, 0))`):
outer `none` means the coercion raised; `some none` means the key is absent. -/
def optNumField (fields : List (String × JVal)) (k : String) : Option (Option ℚ) :=
  match lookupJ fields k with
  | none => some none
  | some (.jnum q) => some (some q)
  | some (.jstr _) => none

/-- `float()`/`int()` on a string, modelled for nonnegative integer decimal
strings. -/
def strToNum (s : String) : Option ℚ :=
  (s.toNat?).map (fun n => (n : ℚ))

/-- `handle_timestamp_format(event_data.get('timestamp', row[2]))`. -/
def jdictOrRowTs (fields : List (String × JVal)) (c : Cell) : Option ℚ :=
  match lookupJ fields "timestamp" with
  | some (.jnum q) => some q
  | some (.jstr _) => none
  | none => cellNum c

/-- `_process_location_record` (lines 676-699). -/
def process_location_record (user : String) (now : ℚ) (row : Row) :
    Option (String × RDoc) :=
  if 5 ≤ row.length then do
    let ts ← tsOfCell (rowGet row 2)
    let fields ← jsonLoads (rowGet row 4)
    let lat ← jnumD fields "latitude"
    let lon ← jnumD fields "longitude"
    let acc ← jnumD fields "accuracy"
    let alt ← jnumD fields "altitude"
    pure ("ios_location",
      [("uid", RVal.rstr user), ("timestamp", RVal.rnum ts),
       ("event_id", RVal.rcell (rowGet row 3)),
       ("latitude", RVal.rnum lat), ("longitude", RVal.rnum lon),
       ("accuracy", RVal.rnum acc), ("altitude", RVal.rnum alt),
       ("processed_at", RVal.rnum now)])
  else none

/-- `_process_activity_record` (lines 701-725). -/
def process_activity_record (user : String) (now : ℚ) (row : Row) :
    Option (String × RDoc) :=
  if 4 ≤ row.length then do
    let ts ← tsOfCell (rowGet row 2)
    let txt ← cellText (rowGet row 4)
    let parts := txt.splitOn ","
    let activities := ((parts.getD 0 "").splitOn " ").dropLast
    let confidence : RVal :=
      if 2 ≤ parts.length then RVal.rstr (parts.getD 1 "") else RVal.rnum 0
    pure ("ios_activity",
      [("uid", RVal.rstr user), ("timestamp", RVal.rnum ts),
       ("event_id", RVal.rcell (rowGet row 3)),
       ("activity", RVal.rlist activities), ("confidence", confidence),
       ("processed_at", RVal.rnum now)])
  else none

/-- `_process_steps_record` (lines 727-752). -/
def process_steps_record (user : String) (now : ℚ) (row : Row) :
    Option (String × RDoc) :=
  if 4 ≤ row.length then do
    let startTs ← tsOfCell (rowGet row 2)
    let txt ← cellText (rowGet row 4)
    let parts := txt.splitOn ","
    let endRaw ← strToNum (parts.getD 0 "")
    let steps ← if 2 ≤ parts.length then strToNum (parts.getD 1 "") else pure 0
    let dist ← if 3 ≤ parts.length then strToNum (parts.getD 2 "") else pure 0
    let fasc ← if 4 ≤ parts.length then strToNum (parts.getD 3 "") else pure 0
    let fdesc ← if 5 ≤ parts.length then strToNum (parts.getD 4 "") else pure 0
    pure ("ios_steps",
      [("uid", RVal.rstr user), ("start_timestamp", RVal.rnum startTs),
       ("event_id", RVal.rcell (rowGet row 3)),
       ("end_timestamp", RVal.rnum (handle_timestamp_format endRaw)),
       ("steps", RVal.rnum steps), ("distance", RVal.rnum dist),
       ("floors_ascended", RVal.rnum fasc), ("floors_descended", RVal.rnum fdesc),
       ("processed_at", RVal.rnum now)])
  else none

/-- `_process_battery_record` (lines 754-779). -/
def process_battery_record (user : String) (now : ℚ) (row : Row) :
    Option (String × RDoc) :=
  if 5 ≤ row.length then do
    let ts ← tsOfCell (rowGet row 2)
    let fields ← jsonLoads (rowGet row 4)
    let bl ← optNumField fields "battery_left"
    let bs ← optNumField fields "battery_state"
    pure ("ios_battery",
      [("uid", RVal.rstr user), ("timestamp", RVal.rnum ts),
       ("event_id", RVal.rcell (rowGet row 3)), ("processed_at", RVal.rnum now)] ++
      (match bl with | some q => [("battery_left", RVal.rnum q)] | none => []) ++
      (match bs with | some q => [("battery_state", RVal.rnum q)] | none => []))
  else none

/-- `_process_wifi_record` (lines 781-808). -/
def process_wifi_record (user : String) (now : ℚ) (row : Row) :
    Option (String × RDoc) :=
  if 5 ≤ row.length then do
    let ts ← tsOfCell (rowGet row 2)
    let fields ← jsonLoads (rowGet row 4)
    let extra ←
      if rowGet row 3 = Cell.cnum 18 then
        pure [("bssid", rvalOfJD fields "bssid" (RVal.rstr "")),
              ("ssid", rvalOfJD fields "ssid" (RVal.rstr ""))]
      else if rowGet row 3 = Cell.cnum 181 then do
        let we ← jnumD fields "wifi_enabled"
        let wc ← optNumField fields "wifi_connected"
        pure ([("wifi_enabled", RVal.rnum we)] ++
          (match wc with | some q => [("wifi_connected", RVal.rnum q)] | none => []))
      else pure []
    pure ("ios_wifi",
      [("uid", RVal.rstr user), ("timestamp", RVal.rnum ts),
       ("event_id", RVal.rcell (rowGet row 3)), ("processed_at", RVal.rnum now)] ++ extra)
  else none

/-- `_process_bluetooth_record` (lines 810-830). -/
def process_bluetooth_record (user : String) (now : ℚ) (row : Row) :
    Option (String × RDoc) :=
  if 4 ≤ row.length then do
    let ts ← tsOfCell (rowGet row 2)
    let fields ← jsonLoads (rowGet row 4)
    let rssi ← jnumD fields "bt_rssi"
    pure ("ios_bluetooth",
      [("uid", RVal.rstr user), ("timestamp", RVal.rnum ts),
       ("event_id", RVal.rcell (rowGet row 3)),
       ("bt_address", rvalOfJD fields "bt_address" (RVal.rstr "")),
       ("bt_rssi", RVal.rnum rssi),
       ("bt_name", rvalOfJD fields "bt_name" (RVal.rstr "")),
       ("processed_at", RVal.rnum now)])
  else none

/-- `_process_brightness_record` (lines 832-852). -/
def process_brightness_record (user : String) (now : ℚ) (row : Row) :
    Option (String × RDoc) :=
  if 5 ≤ row.length then do
    let ts ← tsOfCell (rowGet row 2)
    let fields ← jsonLoads (rowGet row 4)
    let b ← jnumD fields "brightness"
    pure ("ios_brightness",
      [("uid", RVal.rstr user), ("timestamp", RVal.rnum ts),
       ("event_id", RVal.rcell (rowGet row 3)), ("brightness", RVal.rnum b),
       ("processed_at", RVal.rnum now)])
  else none

/-- `_process_lock_unlock_record` (lines 854-874). -/
def process_lock_unlock_record (user : String) (now : ℚ) (row : Row) :
    Option (String × RDoc) :=
  if 5 ≤ row.length then do
    let ts ← tsOfCell (rowGet row 2)
    let fields ← jsonLoads (rowGet row 4)
    let ls ← jnumD fields "LockState"
    pure ("ios_lock_unlock",
      [("uid", RVal.rstr user), ("timestamp", RVal.rnum ts),
       ("event_id", RVal.rcell (rowGet row 3)), ("lock_state", RVal.rnum ls),
       ("processed_at", RVal.rnum now)])
  else none

/-- `_process_accelerometer_record` (lines 876-895); note the source stores
`row[2]` under `event_id`. -/
def process_accelerometer_record (user : String) (now : ℚ) (row : Row) :
    Option (String × RDoc) :=
  if 4 ≤ row.length then do
    let fields ← jsonLoads (rowGet row 4)
    let tsRaw ← jdictOrRowTs fields (rowGet row 2)
    let x ← jnumD fields "x"
    let y ← jnumD fields "y"
    let z ← jnumD fields "z"
    pure ("ios_accelerometer",
      [("uid", RVal.rstr user),
       ("timestamp", RVal.rnum (handle_timestamp_format tsRaw)),
       ("event_id", RVal.rcell (rowGet row 2)),
       ("x", RVal.rnum x), ("y", RVal.rnum y), ("z", RVal.rnum z),
       ("processed_at", RVal.rnum now)])
  else none

/-- `_process_calllog_record` (lines 897-918); the source stores `row[2]`
under `event_id`. -/
def process_calllog_record (user : String) (now : ℚ) (row : Row) :
    Option (String × RDoc) :=
  if 4 ≤ row.length then do
    let ts ← tsOfCell (rowGet row 2)
    let fields ← jsonLoads (rowGet row 4)
    let ctRaw ← jnumD fields "timestamp"
    let dur ← jnumD fields "duration"
    pure ("ios_calllog",
      [("uid", RVal.rstr user), ("timestamp", RVal.rnum ts),
       ("event_id", RVal.rcell (rowGet row 2)),
       ("call_timestamp", RVal.rnum (handle_timestamp_format ctRaw)),
       ("callId", RVal.rstr (jstrD fields "callId")),
       ("callType", RVal.rstr (jstrD fields "callType")),
       ("duration", RVal.rnum dur), ("processed_at", RVal.rnum now)])
  else none

/-- `_process_garmin_hr_record` (lines 920-939). -/
def process_garmin_hr_record (user : String) (now : ℚ) (row : Row) :
    Option (String × RDoc) :=
  if 4 ≤ row.length then do
    let fields ← jsonLoads (rowGet row 4)
    let tsRaw ← jdictOrRowTs fields (rowGet row 2)
    let hr ← jnumD fields "heart_rate"
    pure ("garmin_hr",
      [("uid", RVal.rstr user),
       ("timestamp", RVal.rnum (handle_timestamp_format tsRaw)),
       ("event_id", RVal.rcell (rowGet row 2)),
       ("heart_rate", RVal.rnum hr),
       ("status", RVal.rstr (jstrD fields "status")),
       ("device", RVal.rstr (jstrD fields "device")),
       ("processed_at", RVal.rnum now)])
  else none

/-- `_process_garmin_stress_record` (lines 941-960). -/
def process_garmin_stress_record (user : String) (now : ℚ) (row : Row) :
    Option (String × RDoc) :=
  if 4 ≤ row.length then do
    let fields ← jsonLoads (rowGet row 4)
    let tsRaw ← jdictOrRowTs fields (rowGet row 2)
    let st ← jnumD fields "stress"
    pure ("garmin_stress",
      [("uid", RVal.rstr user),
       ("timestamp", RVal.rnum (handle_timestamp_format tsRaw)),
       ("event_id", RVal.rcell (rowGet row 2)),
       ("stress", RVal.rnum st),
       ("status", RVal.rstr (jstrD fields "status")),
       ("device", RVal.rstr (jstrD fields "device")),
       ("processed_at", RVal.rnum now)])
  else none

/-- `_process_app_usage_record` (lines 962-981). -/
def process_app_usage_record (user : String) (now : ℚ) (row : Row) :
    Option (String × RDoc) :=
  if 4 ≤ row.length then do
    let ts ← tsOfCell (rowGet row 2)
    let fields ← jsonLoads (rowGet row 4)
    pure ("app_usage_logs",
      [("uid", RVal.rstr user), ("timestamp", RVal.rnum ts),
       ("event_id", RVal.rcell (rowGet row 2)),
       ("appName", RVal.rstr (jstrD fields "appName")),
       ("status", RVal.rstr (jstrD fields "status")),
       ("processed_at", RVal.rnum now)])
  else none

/-- `_process_ema_response_record` (lines 983-1002). -/
def process_ema_response_record (user : String) (now : ℚ) (row : Row) :
    Option (String × RDoc) :=
  if 4 ≤ row.length then do
    let ts ← tsOfCell (rowGet row 2)
    let fields ← jsonLoads (rowGet row 4)
    pure ("ema_response",
      [("uid", RVal.rstr user), ("timestamp", RVal.rnum ts),
       ("event_id", RVal.rcell (rowGet row 2)),
       ("ema_id", RVal.rstr (jstrD fields "ema_id")),
       ("questions", rvalOfJD fields "questions" (RVal.rdoc [])),
       ("processed_at", RVal.rnum now)])
  else none

/-- `_process_ema_status_record` (lines 1004-1023). -/
def process_ema_status_record (user : String) (now : ℚ) (row : Row) :
    Option (String × RDoc) :=
  if 4 ≤ row.length then do
    let ts ← tsOfCell (rowGet row 2)
    let fields ← jsonLoads (rowGet row 4)
    pure ("ema_status_events",
      [("uid", RVal.rstr user), ("timestamp", RVal.rnum ts),
       ("event_id", RVal.rcell (rowGet row 2)),
       ("ema_id", RVal.rstr (jstrD fields "ema_id")),
       ("status", RVal.rstr (jstrD fields "status")),
       ("processed_at", RVal.rnum now)])
  else none

/-- `_process_notification_record` (lines 1025-1046). -/
def process_notification_record (user : String) (now : ℚ) (row : Row) :
    Option (String × RDoc) :=
  if 4 ≤ row.length then do
    let ts ← tsOfCell (rowGet row 2)
    let fields ← jsonLoads (rowGet row 4)
    pure ("notification_events",
      [("uid", RVal.rstr user), ("timestamp", RVal.rnum ts),
       ("event_id", RVal.rcell (rowGet row 2)),
       ("notification_id", RVal.rstr (jstrD fields "notification_id")),
       ("status", RVal.rstr (jstrD fields "status")),
       ("expectedScheduledTime", rvalOfJD fields "expectedScheduledTime" (RVal.rstr "")),
       ("type", rvalOfJD fields "type" (RVal.rstr "")),
       ("processed_at", RVal.rnum now)])
  else none

/-- `_process_unknown_event_record` (lines 1048-1066): the unknown-events
sink requires at least 5 row elements; `raw_data = str(row[4])` is total. -/
def process_unknown_event_record (user : String) (now : ℚ) (row : Row)
    (eventId : Cell) : Option (String × RDoc) :=
  if 5 ≤ row.length then do
    let ts ← tsOfCell (rowGet row 2)
    pure ("unknown_events_data",
      [("uid", RVal.rstr user), ("timestamp", RVal.rnum ts),
       ("event_id", RVal.rcell eventId),
       ("raw_data", RVal.rcell (rowGet row 4)),
       ("processed_at", RVal.rnum now)])
  else none

/-- `_process_event_by_id` (lines 633-674): dispatch on the numeric type
code, with the unknown-events sink as the else branch. -/
def process_event_by_id (user : String) (now : ℚ) (row : Row) (eventId : Cell) :
    Option (String × RDoc) :=
  if eventId = Cell.cnum 152 ∨ eventId = Cell.cnum 151 then
    process_location_record user now row
  else if eventId = Cell.cnum 16 then process_activity_record user now row
  else if eventId = Cell.cnum 21 then process_steps_record user now row
  else if eventId = Cell.cnum 11 ∨ eventId = Cell.cnum 111 then
    process_battery_record user now row
  else if eventId = Cell.cnum 18 ∨ eventId = Cell.cnum 181 then
    process_wifi_record user now row
  else if eventId = Cell.cnum 19 then process_bluetooth_record user now row
  else if eventId = Cell.cnum 13 then process_brightness_record user now row
  else if eventId = Cell.cnum 14 then process_lock_unlock_record user now row
  else if eventId = Cell.cnum 447 then process_accelerometer_record user now row
  else if eventId = Cell.cnum 23 then process_calllog_record user now row
  else if eventId = Cell.cnum 442 then process_garmin_hr_record user now row
  else if eventId = Cell.cnum 443 then process_garmin_stress_record user now row
  else if eventId = Cell.cnum 501 then process_app_usage_record user now row
  else if eventId = Cell.cnum 502 then process_ema_response_record user now row
  else if eventId = Cell.cnum 503 then process_ema_status_record user now row
  else if eventId = Cell.cnum 504 then process_notification_record user now row
  else process_unknown_event_record user now row eventId

/-- One row of `_process_ios_database` (lines 612-621): rows with fewer than
4 elements are skipped without dispatch. -/
def process_row (user : String) (now : ℚ) (row : Row) : List (String × RDoc) :=
  if 4 ≤ row.length then (process_event_by_id user now row (rowGet row 3)).toList
  else []

/-- All rows of a table, in order; per-row errors are caught, so every row
contributes its own emissions independently. -/
def process_rows (user : String) (now : ℚ) (rows : List Row) : List (String × RDoc) :=
  rows.flatMap (process_row user now)

/-- The type codes with a dedicated branch in `_process_event_by_id`. -/
def isMappedEventId (c : Cell) : Prop :=
  c = Cell.cnum 152 ∨ c = Cell.cnum 151 ∨ c = Cell.cnum 16 ∨ c = Cell.cnum 21 ∨
  c = Cell.cnum 11 ∨ c = Cell.cnum 111 ∨ c = Cell.cnum 18 ∨ c = Cell.cnum 181 ∨
  c = Cell.cnum 19 ∨ c = Cell.cnum 13 ∨ c = Cell.cnum 14 ∨ c = Cell.cnum 447 ∨
  c = Cell.cnum 23 ∨ c = Cell.cnum 442 ∨ c = Cell.cnum 443 ∨ c = Cell.cnum 501 ∨
  c = Cell.cnum 502 ∨ c = Cell.cnum 503 ∨ c = Cell.cnum 504

instance isMappedEventId.decPred : DecidablePred isMappedEventId := fun c => by
  unfold isMappedEventId
  infer_instance

end StudyBackend

namespace StudyBackend

/-! ### Digit-length lemmas -/

theorem digitLenAux_eq_log : ∀ fuel n, n ≤ fuel → digitLenAux fuel n = Nat.log 10 n + 1 := by
  intro fuel
  induction fuel with
  | zero =>
      intro n hn
      have : n = 0 := Nat.le_zero.mp hn
      subst this
      simp [digitLenAux]
  | succ f ih =>
      intro n hn
      have hstep : digitLenAux (f + 1) n = if n < 10 then 1 else digitLenAux f (n / 10) + 1 :=
        rfl
      by_cases h10 : n < 10
      · rw [hstep, if_pos h10, Nat.log_of_lt h10]
      · push_neg at h10
        have hpos : 0 < n := lt_of_lt_of_le (by norm_num) h10
        have hdiv : n / 10 ≤ f := by
          have : n / 10 < n := Nat.div_lt_self hpos (by norm_num)
          omega
        have hrec := ih (n / 10) hdiv
        have hlog : Nat.log 10 n = Nat.log 10 (n / 10) + 1 :=
          Nat.log_of_one_lt_of_le (by norm_num) h10
        rw [hstep, if_neg (Nat.not_lt.mpr h10), hrec, hlog]

theorem digitLen_eq_log (n : ℕ) : digitLen n = Nat.log 10 n + 1 :=
  digitLenAux_eq_log n n le_rfl

theorem digitLen_eq_ten_iff (n : ℕ) : digitLen n = 10 ↔ 10 ^ 9 ≤ n ∧ n < 10 ^ 10 := by
  rw [digitLen_eq_log]
  constructor
  · intro h
    have h9 : Nat.log 10 n = 9 := by omega
    have := (Nat.log_eq_iff (Or.inl (by norm_num))).mp h9
    simpa using this
  · intro h
    have : Nat.log 10 n = 9 := (Nat.log_eq_iff (Or.inl (by norm_num))).mpr (by simpa using h)
    omega

/-- Claim C1: for every nonnegative numeric timestamp input, the shared
timestamp normalizer returns the value unchanged when the integer portion of
its string representation has exactly 10 digits (equivalently
`10^9 ≤ ⌊t⌋ < 10^10`), and otherwise returns the value divided by 1000; in
particular `1690000000 ↦ 1690000000.0` and `1690000000000 ↦ 1690000000.0`. -/
theorem timestamp_normalizer_ok (t : ℚ) (ht : 0 ≤ t) :
    (((10 : ℤ) ^ 9 ≤ ⌊t⌋ ∧ ⌊t⌋ < (10 : ℤ) ^ 10) → handle_timestamp_format t = t) ∧
    (¬ ((10 : ℤ) ^ 9 ≤ ⌊t⌋ ∧ ⌊t⌋ < (10 : ℤ) ^ 10) →
      handle_timestamp_format t = t / 1000) ∧
    handle_timestamp_format 1690000000 = 1690000000 ∧
    handle_timestamp_format 1690000000000 = 1690000000 := by
  have hfloor : 0 ≤ ⌊t⌋ := Int.le_floor.mpr (by exact_mod_cast ht)
  have hbridge : digitLen (Int.toNat ⌊t⌋) = 10 ↔
      ((10 : ℤ) ^ 9 ≤ ⌊t⌋ ∧ ⌊t⌋ < (10 : ℤ) ^ 10) := by
    rw [digitLen_eq_ten_iff]
    constructor <;> intro h <;> (norm_num at h ⊢) <;> omega
  refine ⟨?_, ?_, ?_, ?_⟩
  · intro h
    simp only [handle_timestamp_format]
    rw [if_pos (hbridge.mpr h)]
  · intro h
    have hne : ¬ digitLen (Int.toNat ⌊t⌋) = 10 := fun hc => h (hbridge.mp hc)
    simp only [handle_timestamp_format]
    rw [if_neg hne]
  · decide
  · have hfl : ⌊(1690000000000 : ℚ)⌋ = 1690000000000 := by norm_num
    have hne : ¬ digitLen (Int.toNat ⌊(1690000000000 : ℚ)⌋) = 10 := by
      rw [hfl]; decide
    simp only [handle_timestamp_format]
    rw [if_neg hne]
    norm_num

theorem timestamp_normalizer_ok_witness :
    handle_timestamp_format 1690000000 = 1690000000 :=
  (timestamp_normalizer_ok 1690000000 (by norm_num)).1 (by norm_num)

/-! ### Location duration lemmas -/

theorem gpsMinutesLoop_shift (l : List ℚ) :
    ∀ prev acc, gpsMinutesLoop prev acc l = acc + gpsMinutesLoop prev 0 l := by
  induction l with
  | nil => intro prev acc; simp [gpsMinutesLoop]
  | cons t rest ih =>
      intro prev acc
      simp only [gpsMinutesLoop]
      rw [ih t, ih t (if t - prev < 15 * 60 then 0 + (t - prev) / 60 else 0)]
      split <;> ring

theorem gpsMinutesLoop_pairs (l : List ℚ) :
    ∀ a, gpsMinutesLoop a 0 l * 60 = interFixDurationSum (a :: l) := by
  induction l with
  | nil => intro a; simp [gpsMinutesLoop, interFixDurationSum]
  | cons b rest ih =>
      intro a
      simp only [gpsMinutesLoop, interFixDurationSum]
      rw [gpsMinutesLoop_shift]
      rw [← ih b]
      split <;> ring

/-- Claim C2: over the timestamp-ordered location fixes of a window (all of
them genuine epoch timestamps, i.e. at least the 15-minute threshold of 900
seconds, which makes the loop's `previous_time = 0` sentinel exceed the
threshold on the first fix), the location/phone duration equals the sum of
the inter-fix deltas, a delta counting only when the gap between the two
consecutive fixes is strictly under 15 minutes; gaps at or above 15 minutes
contribute nothing while earlier segments still count. -/
theorem location_duration_ok (ts : List ℚ) (hsorted : ts.Chain' (· ≤ ·))
    (hepoch : ∀ t ∈ ts, 15 * 60 ≤ t) :
    locationDurationHours ts = interFixDurationSum ts / 3600 := by
  cases ts with
  | nil => simp [locationDurationHours, gpsMinutesLoop, interFixDurationSum]
  | cons t rest =>
      have ht : 15 * 60 ≤ t := hepoch t (by simp)
      have hnotlt : ¬ (t < 15 * 60) := not_lt.mpr ht
      have h1 : locationDurationHours (t :: rest) = gpsMinutesLoop t 0 rest / 60 := by
        simp [locationDurationHours, gpsMinutesLoop, hnotlt]
      have h2 := gpsMinutesLoop_pairs rest t
      have h3 : gpsMinutesLoop t 0 rest = interFixDurationSum (t :: rest) / 60 := by
        field_simp at h2 ⊢
        linarith
      rw [h1, h3]
      ring

theorem location_duration_ok_witness :
    locationDurationHours [1000, 1060, 1120] =
      interFixDurationSum [1000, 1060, 1120] / 3600 :=
  location_duration_ok [1000, 1060, 1120] (by norm_num [List.chain'_cons]) (by norm_num)

/-! ### Batch writer flush theorems -/

/-- Claim C3 is false on the code: with two buffered collections and a bulk
insert that fails for the first one, the failure is caught and logged, but
the `try`/`except` wraps the whole loop, so the second collection's buffer is
not flushed (nothing at all is written and both buffers survive). -/
theorem flush_records_counterexample :
    flush_records (fun c => !(c == "collection_a"))
        [("collection_a", [1]), ("collection_b", [2])] =
      ⟨[], [("collection_a", [1]), ("collection_b", [2])], true⟩ ∧
    ("collection_b", [2]) ∉ (flush_records (fun c => !(c == "collection_a"))
        [("collection_a", [1]), ("collection_b", [2])]).written := by
  decide

/-- Claim C3 amended: when the bulk insert fails for one collection, the
failure is logged and does not propagate (the exception is caught), and the
collections flushed before the failing one are written and cleared, but the
flush loop aborts: the failing collection and every collection after it in
iteration order keep their buffers and nothing is written for them. -/
theorem flush_records_failure_truncates (insertOk : String → Bool)
    (pre post : List (String × List ℕ)) (c : String) (rs : List ℕ)
    (hrs : rs ≠ [])
    (hpre : ∀ p ∈ pre, p.2 ≠ [] → insertOk p.1 = true)
    (hc : insertOk c = false) :
    flush_records insertOk (pre ++ (c, rs) :: post) =
      ⟨pre.filter (fun p => !p.2.isEmpty),
       pre.map (fun p => (p.1, ([] : List ℕ))) ++ (c, rs) :: post,
       true⟩ := by
  induction pre with
  | nil =>
      simp only [List.nil_append, flush_records, flushLoop, List.filter_nil, List.map_nil]
      rw [if_neg (by simpa using hrs), if_neg (by simp [hc])]
  | cons p pre ih =>
      obtain ⟨pc, prs⟩ := p
      have ihapp := ih (fun q hq hne => hpre q (by simp [hq]) hne)
      by_cases hempty : prs = []
      · subst hempty
        simp only [List.cons_append, flush_records, flushLoop, List.isEmpty_nil, if_true]
        rw [flush_records] at ihapp
        simp only [List.append_eq]
        rw [ihapp]
        simp
      · have hok : insertOk pc = true := hpre (pc, prs) (by simp) hempty
        simp only [List.cons_append, flush_records, flushLoop]
        rw [if_neg (by simpa using hempty), if_pos hok]
        rw [flush_records] at ihapp
        simp only [List.append_eq]
        rw [ihapp]
        simp [hempty]

theorem flush_records_failure_truncates_witness :
    flush_records (fun c => !(c == "collection_a"))
        ([("collection_x", [5]), ("collection_y", [])] ++
          ("collection_a", [1]) :: [("collection_b", [2])]) =
      ⟨[("collection_x", [5])],
       [("collection_x", []), ("collection_y", [])] ++
         ("collection_a", [1]) :: [("collection_b", [2])],
       true⟩ :=
  flush_records_failure_truncates (fun c => !(c == "collection_a"))
    [("collection_x", [5]), ("collection_y", [])] [("collection_b", [2])]
    "collection_a" [1] (by decide) (by decide) (by decide)

/-! ### Garmin FIT processing theorems -/

/-- Claim C5: if the external decoder exits with a non-zero code, or its
expected CSV output directory is missing, processing of the FIT file reports
failure and the file is not archived; the file is archived only when
processing reports success. -/
theorem garmin_fit_failure_not_archived (env : FitEnv) :
    (env.returncode ≠ 0 →
      process_garmin_fit_file env = false ∧ garmin_file_archived env = false) ∧
    (env.csvDirExists = false →
      process_garmin_fit_file env = false ∧ garmin_file_archived env = false) ∧
    (garmin_file_archived env = true → process_garmin_fit_file env = true) := by
  unfold garmin_file_archived process_garmin_fit_file process_garmin_csv_files
  refine ⟨fun h => ?_, fun h => ?_, fun h => h⟩
  · split_ifs <;> simp_all
  · split_ifs <;> simp_all

theorem garmin_fit_failure_not_archived_witness :
    (1 : ℤ) ≠ 0 ∧
    process_garmin_fit_file ⟨true, true, 1, true, true⟩ = false ∧
    garmin_file_archived ⟨true, true, 1, true, true⟩ = false :=
  ⟨by decide, (garmin_fit_failure_not_archived ⟨true, true, 1, true, true⟩).1 (by decide)⟩

/-! ### Archive collision theorems -/

/-- Claim C6 is false on the code: the archive step (`archive_file`) chooses
the plain destination name even when a file already exists there, so the
existing destination file is replaced by `shutil.move` — the `.duplicate`
suffix is not applied when archiving. -/
theorem archive_collision_counterexample :
    archive_file_dest (fun _ => true) "processed/phone/u1" "data.db" =
      "processed/phone/u1" ++ "/" ++ "data.db" ∧
    archive_file_dest (fun _ => true) "processed/phone/u1" "data.db" ≠
      "processed/phone/u1" ++ "/" ++ ("data.db" ++ ".duplicate") ∧
    move_replaces_existing (fun _ => true)
      (archive_file_dest (fun _ => true) "processed/phone/u1" "data.db") = true := by
  refine ⟨rfl, by decide, rfl⟩

/-- Claim C6 amended: collision-safe `.duplicate` suffixing happens when an
uploaded file is first saved (`save_file`), where an existing destination
file is indeed left in place; the archive step (`archive_file`) moves the
file to the plain destination name unconditionally, overwriting any existing
file with that name. -/
theorem save_file_collision_safe (fileExists : String → Bool) (dir fname : String)
    (h : fileExists (dir ++ "/" ++ fname) = true) :
    save_file_dest fileExists dir fname = dir ++ "/" ++ (fname ++ ".duplicate") ∧
    save_file_dest fileExists dir fname ≠ dir ++ "/" ++ fname ∧
    archive_file_dest fileExists dir fname = dir ++ "/" ++ fname := by
  refine ⟨by simp [save_file_dest, h], ?_, rfl⟩
  simp only [save_file_dest, h, if_true]
  intro heq
  have hlen := congrArg String.length heq
  have h10 : (".duplicate" : String).length = 10 := rfl
  simp only [String.length_append, h10] at hlen
  omega

theorem save_file_collision_safe_witness :
    save_file_dest (fun s => s == "d/a.db") "d" "a.db" = "d" ++ "/" ++ ("a.db" ++ ".duplicate") ∧
    save_file_dest (fun s => s == "d/a.db") "d" "a.db" ≠ "d" ++ "/" ++ "a.db" ∧
    archive_file_dest (fun s => s == "d/a.db") "d" "a.db" = "d" ++ "/" ++ "a.db" :=
  save_file_collision_safe (fun s => s == "d/a.db") "d" "a.db" (by decide)

/-! ### Garmin wear / monitoring-on duration theorems -/

theorem garmin_wear_count (hr : List HRRec) (stress : List StressRec)
    (uid : String) (s e : ℚ) :
    (get_garmin_info hr stress uid s e).1 =
      (hr.countP (fun r => hrInWindow uid s e r && decide (0 < r.heart_rate.getD 0)) : ℚ)
        / 360 := by
  simp only [get_garmin_info]
  rw [List.filter_filter, ← List.countP_eq_length_filter]
  have hcomm : (fun (a : HRRec) => decide (0 < a.heart_rate.getD 0) && hrInWindow uid s e a)
      = (fun r => hrInWindow uid s e r && decide (0 < r.heart_rate.getD 0)) := by
    funext r
    exact Bool.and_comm _ _
  rw [hcomm]
  norm_num

theorem garmin_on_count (hr : List HRRec) (stress : List StressRec)
    (uid : String) (s e : ℚ) :
    (get_garmin_info hr stress uid s e).2 =
      (stress.countP (stressInWindow uid s e) : ℚ) / 360 := by
  simp only [get_garmin_info]
  rw [← List.countP_eq_length_filter]
  norm_num

/-- Claim C8: the device wear duration is the number of in-window heart-rate
records with value strictly greater than 0, divided by `6*60`, and the
monitoring-on duration is the total number of in-window stress records (no
value filter), divided by `6*60`, both in hours. -/
theorem garmin_info_ok (hr : List HRRec) (stress : List StressRec)
    (uid : String) (s e : ℚ) :
    (get_garmin_info hr stress uid s e).1 =
      (hr.countP (fun r => hrInWindow uid s e r && decide (0 < r.heart_rate.getD 0)) : ℚ)
        / (6 * 60) ∧
    (get_garmin_info hr stress uid s e).2 =
      (stress.countP (stressInWindow uid s e) : ℚ) / (6 * 60) := by
  constructor
  · rw [garmin_wear_count]; norm_num
  · rw [garmin_on_count]; norm_num

/-- Claim C9 is false on the code: a one-day window containing exactly 60
positive heart-rate samples yields a wear duration of `60 / (6*60) = 1/6`
hour (10 minutes), not 1.0 hour. -/
theorem wear_duration_counterexample :
    (get_garmin_info (List.replicate 60 ⟨"u1", 1000, some 80⟩) [] "u1" 0 86400).1 = 1 / 6 ∧
    (get_garmin_info (List.replicate 60 ⟨"u1", 1000, some 80⟩) [] "u1" 0 86400).1 ≠ 1 := by
  have hcount : (List.replicate 60 (⟨"u1", 1000, some 80⟩ : HRRec)).countP
      (fun r => hrInWindow "u1" 0 86400 r && decide (0 < r.heart_rate.getD 0)) = 60 := by
    decide
  rw [garmin_wear_count, hcount]
  norm_num

/-- Claim C9 amended: a window whose heart-rate collection contains exactly
60 in-window samples with value strictly greater than 0 yields a device wear
duration of `60 / (6*60) = 1/6` hour. -/
theorem wear_duration_sixty_samples (hr : List HRRec) (stress : List StressRec)
    (uid : String) (s e : ℚ)
    (h : hr.countP (fun r => hrInWindow uid s e r && decide (0 < r.heart_rate.getD 0)) = 60) :
    (get_garmin_info hr stress uid s e).1 = 1 / 6 := by
  rw [garmin_wear_count, h]
  norm_num

theorem wear_duration_sixty_samples_witness :
    (get_garmin_info (List.replicate 60 ⟨"u2", 2000, some 70⟩) [] "u2" 0 86400).1 = 1 / 6 :=
  wear_duration_sixty_samples (List.replicate 60 ⟨"u2", 2000, some 70⟩) [] "u2" 0 86400
    (by decide)

/-! ### Daily summary upsert theorems -/

theorem matchesKey_mk (uid : String) (ts : ℚ) (dateStr : String)
    (dist dur wear onDur : ℚ) (ema : MDoc) (genAt : ℚ) :
    matchesKey uid ts (mk_daily_summary uid ts dateStr dist dur wear onDur ema genAt) = true := by
  simp [matchesKey, mk_daily_summary, lookupM, isStrVal, isNumVal]

theorem setFields_base_mk (uid : String) (ts : ℚ) (dateStr : String)
    (dist dur wear onDur : ℚ) (ema : MDoc) (genAt : ℚ) :
    setFields [("uid", MVal.mstr uid), ("date", MVal.mnum ts)]
        (mk_daily_summary uid ts dateStr dist dur wear onDur ema genAt) =
      mk_daily_summary uid ts dateStr dist dur wear onDur ema genAt :=
  rfl

theorem setFields_mk_mk (uid : String) (ts : ℚ) (dateStr1 : String)
    (dist1 dur1 wear1 onDur1 : ℚ) (ema1 : MDoc) (genAt1 : ℚ) (dateStr2 : String)
    (dist2 dur2 wear2 onDur2 : ℚ) (ema2 : MDoc) (genAt2 : ℚ) :
    setFields (mk_daily_summary uid ts dateStr1 dist1 dur1 wear1 onDur1 ema1 genAt1)
        (mk_daily_summary uid ts dateStr2 dist2 dur2 wear2 onDur2 ema2 genAt2) =
      mk_daily_summary uid ts dateStr2 dist2 dur2 wear2 onDur2 ema2 genAt2 :=
  rfl

theorem upsert_no_match (uid : String) (ts : ℚ) (upd : MDoc) (store : List MDoc)
    (h : ∀ d ∈ store, matchesKey uid ts d = false) :
    update_one_upsert uid ts upd store =
      store ++ [setFields [("uid", MVal.mstr uid), ("date", MVal.mnum ts)] upd] := by
  induction store with
  | nil => simp [update_one_upsert]
  | cons d rest ih =>
      have hd : matchesKey uid ts d = false := h d (by simp)
      simp only [update_one_upsert, hd, Bool.false_eq_true, if_false, List.cons_append,
        List.cons.injEq, true_and]
      exact ih (fun d0 hd0 => h d0 (by simp [hd0]))

theorem upsert_append_match (uid : String) (ts : ℚ) (upd : MDoc) (store : List MDoc)
    (h : ∀ d ∈ store, matchesKey uid ts d = false) (d0 : MDoc)
    (hd0 : matchesKey uid ts d0 = true) (rest : List MDoc) :
    update_one_upsert uid ts upd (store ++ d0 :: rest) =
      store ++ setFields d0 upd :: rest := by
  induction store with
  | nil => simp [update_one_upsert, hd0]
  | cons d tail ih =>
      have hd : matchesKey uid ts d = false := h d (by simp)
      simp only [List.cons_append, update_one_upsert, hd, Bool.false_eq_true, if_false,
        List.cons.injEq, true_and]
      exact ih (fun x hx => h x (by simp [hx]))

/-- Claim C7: generating the daily summary twice for the same `(uid,
day-start)` key — possibly over different underlying data — leaves exactly
one summary document for that key, and that document is exactly the second
computation's summary (the prior summary is replaced wholesale, with no
residue of the first computation). -/
theorem daily_summary_overwrite (store : List MDoc) (uid : String) (ts : ℚ)
    (h : ∀ d ∈ store, matchesKey uid ts d = false)
    (dateStr1 : String) (dist1 dur1 wear1 onDur1 : ℚ) (ema1 : MDoc) (genAt1 : ℚ)
    (dateStr2 : String) (dist2 dur2 wear2 onDur2 : ℚ) (ema2 : MDoc) (genAt2 : ℚ) :
    (generate_user_daily_summary
        (generate_user_daily_summary store uid ts dateStr1 dist1 dur1 wear1 onDur1 ema1 genAt1)
        uid ts dateStr2 dist2 dur2 wear2 onDur2 ema2 genAt2).countP (matchesKey uid ts) = 1 ∧
    (generate_user_daily_summary
        (generate_user_daily_summary store uid ts dateStr1 dist1 dur1 wear1 onDur1 ema1 genAt1)
        uid ts dateStr2 dist2 dur2 wear2 onDur2 ema2 genAt2).filter (matchesKey uid ts) =
      [mk_daily_summary uid ts dateStr2 dist2 dur2 wear2 onDur2 ema2 genAt2] := by
  have h1 : generate_user_daily_summary store uid ts dateStr1 dist1 dur1 wear1 onDur1
      ema1 genAt1 =
      store ++ [mk_daily_summary uid ts dateStr1 dist1 dur1 wear1 onDur1 ema1 genAt1] := by
    rw [generate_user_daily_summary, upsert_no_match uid ts _ store h, setFields_base_mk]
  have h2 : generate_user_daily_summary
      (generate_user_daily_summary store uid ts dateStr1 dist1 dur1 wear1 onDur1 ema1 genAt1)
      uid ts dateStr2 dist2 dur2 wear2 onDur2 ema2 genAt2 =
      store ++ [mk_daily_summary uid ts dateStr2 dist2 dur2 wear2 onDur2 ema2 genAt2] := by
    rw [h1, generate_user_daily_summary,
      upsert_append_match uid ts _ store h _ (matchesKey_mk uid ts dateStr1 dist1 dur1
        wear1 onDur1 ema1 genAt1) [], setFields_mk_mk]
  rw [h2]
  have hfil : (store ++ [mk_daily_summary uid ts dateStr2 dist2 dur2 wear2 onDur2 ema2
      genAt2]).filter (matchesKey uid ts) =
      [mk_daily_summary uid ts dateStr2 dist2 dur2 wear2 onDur2 ema2 genAt2] := by
    rw [List.filter_append]
    rw [List.filter_eq_nil_iff.mpr (fun d hd => by simp [h d hd])]
    simp [matchesKey_mk]
  constructor
  · rw [List.countP_eq_length_filter, hfil]
    rfl
  · exact hfil

theorem daily_summary_overwrite_witness :
    (generate_user_daily_summary
        (generate_user_daily_summary [] "u1" 1000 "2023-07-22" 1 2 3 4 [] 5)
        "u1" 1000 "2023-07-22" 6 7 8 9 [] 10).countP (matchesKey "u1" 1000) = 1 ∧
    (generate_user_daily_summary
        (generate_user_daily_summary [] "u1" 1000 "2023-07-22" 1 2 3 4 [] 5)
        "u1" 1000 "2023-07-22" 6 7 8 9 [] 10).filter (matchesKey "u1" 1000) =
      [mk_daily_summary "u1" 1000 "2023-07-22" 6 7 8 9 [] 10] :=
  daily_summary_overwrite [] "u1" 1000 (by simp) "2023-07-22" 1 2 3 4 [] 5
    "2023-07-22" 6 7 8 9 [] 10

/-! ### Event classifier theorems -/

/-- Claim C4 is false on the code: a location row (type code 152) whose
payload fails JSON decoding is caught and logged inside
`_process_location_record`, but nothing is persisted anywhere — in
particular the record is NOT routed to the unknown-events sink (that sink
only receives rows with unmapped type codes). -/
theorem malformed_payload_counterexample :
    process_row "u1" 0 [Cell.cstr "id1", Cell.cstr "id2", Cell.cnum 1690000000,
      Cell.cnum 152, Cell.cpay Payload.pmalformed] = [] ∧
    "unknown_events_data" ∉ (process_row "u1" 0 [Cell.cstr "id1", Cell.cstr "id2",
      Cell.cnum 1690000000, Cell.cnum 152, Cell.cpay Payload.pmalformed]).map Prod.fst := by
  decide

theorem jsonLoads_malformed (row : Row)
    (hbad : rowGet row 4 = Cell.cpay Payload.pmalformed) :
    jsonLoads (rowGet row 4) = none := by
  rw [hbad]
  rfl

theorem cellText_malformed (row : Row)
    (hbad : rowGet row 4 = Cell.cpay Payload.pmalformed) :
    cellText (rowGet row 4) = none := by
  rw [hbad]
  rfl

theorem process_location_record_malformed (user : String) (now : ℚ) (row : Row)
    (hbad : rowGet row 4 = Cell.cpay Payload.pmalformed) :
    process_location_record user now row = none := by
  have hj := jsonLoads_malformed row hbad
  have htx := cellText_malformed row hbad
  by_cases hl : 5 ≤ row.length
  · cases hts : tsOfCell (rowGet row 2) <;>
      simp [process_location_record, hl, hts, hj]
  · simp [process_location_record, hl]

theorem process_activity_record_malformed (user : String) (now : ℚ) (row : Row)
    (hbad : rowGet row 4 = Cell.cpay Payload.pmalformed) :
    process_activity_record user now row = none := by
  have hj := jsonLoads_malformed row hbad
  have htx := cellText_malformed row hbad
  by_cases hl : 4 ≤ row.length
  · cases hts : tsOfCell (rowGet row 2) <;>
      simp [process_activity_record, hl, hts, htx]
  · simp [process_activity_record, hl]

theorem process_steps_record_malformed (user : String) (now : ℚ) (row : Row)
    (hbad : rowGet row 4 = Cell.cpay Payload.pmalformed) :
    process_steps_record user now row = none := by
  have hj := jsonLoads_malformed row hbad
  have htx := cellText_malformed row hbad
  by_cases hl : 4 ≤ row.length
  · cases hts : tsOfCell (rowGet row 2) <;>
      simp [process_steps_record, hl, hts, htx]
  · simp [process_steps_record, hl]

theorem process_battery_record_malformed (user : String) (now : ℚ) (row : Row)
    (hbad : rowGet row 4 = Cell.cpay Payload.pmalformed) :
    process_battery_record user now row = none := by
  have hj := jsonLoads_malformed row hbad
  have htx := cellText_malformed row hbad
  by_cases hl : 5 ≤ row.length
  · cases hts : tsOfCell (rowGet row 2) <;>
      simp [process_battery_record, hl, hts, hj]
  · simp [process_battery_record, hl]

theorem process_wifi_record_malformed (user : String) (now : ℚ) (row : Row)
    (hbad : rowGet row 4 = Cell.cpay Payload.pmalformed) :
    process_wifi_record user now row = none := by
  have hj := jsonLoads_malformed row hbad
  have htx := cellText_malformed row hbad
  by_cases hl : 5 ≤ row.length
  · cases hts : tsOfCell (rowGet row 2) <;>
      simp [process_wifi_record, hl, hts, hj]
  · simp [process_wifi_record, hl]

theorem process_bluetooth_record_malformed (user : String) (now : ℚ) (row : Row)
    (hbad : rowGet row 4 = Cell.cpay Payload.pmalformed) :
    process_bluetooth_record user now row = none := by
  have hj := jsonLoads_malformed row hbad
  have htx := cellText_malformed row hbad
  by_cases hl : 4 ≤ row.length
  · cases hts : tsOfCell (rowGet row 2) <;>
      simp [process_bluetooth_record, hl, hts, hj]
  · simp [process_bluetooth_record, hl]

theorem process_brightness_record_malformed (user : String) (now : ℚ) (row : Row)
    (hbad : rowGet row 4 = Cell.cpay Payload.pmalformed) :
    process_brightness_record user now row = none := by
  have hj := jsonLoads_malformed row hbad
  have htx := cellText_malformed row hbad
  by_cases hl : 5 ≤ row.length
  · cases hts : tsOfCell (rowGet row 2) <;>
      simp [process_brightness_record, hl, hts, hj]
  · simp [process_brightness_record, hl]

theorem process_lock_unlock_record_malformed (user : String) (now : ℚ) (row : Row)
    (hbad : rowGet row 4 = Cell.cpay Payload.pmalformed) :
    process_lock_unlock_record user now row = none := by
  have hj := jsonLoads_malformed row hbad
  have htx := cellText_malformed row hbad
  by_cases hl : 5 ≤ row.length
  · cases hts : tsOfCell (rowGet row 2) <;>
      simp [process_lock_unlock_record, hl, hts, hj]
  · simp [process_lock_unlock_record, hl]

theorem process_accelerometer_record_malformed (user : String) (now : ℚ) (row : Row)
    (hbad : rowGet row 4 = Cell.cpay Payload.pmalformed) :
    process_accelerometer_record user now row = none := by
  have hj := jsonLoads_malformed row hbad
  have htx := cellText_malformed row hbad
  by_cases hl : 4 ≤ row.length
  · simp [process_accelerometer_record, hl, hj]
  · simp [process_accelerometer_record, hl]

theorem process_calllog_record_malformed (user : String) (now : ℚ) (row : Row)
    (hbad : rowGet row 4 = Cell.cpay Payload.pmalformed) :
    process_calllog_record user now row = none := by
  have hj := jsonLoads_malformed row hbad
  have htx := cellText_malformed row hbad
  by_cases hl : 4 ≤ row.length
  · cases hts : tsOfCell (rowGet row 2) <;>
      simp [process_calllog_record, hl, hts, hj]
  · simp [process_calllog_record, hl]

theorem process_garmin_hr_record_malformed (user : String) (now : ℚ) (row : Row)
    (hbad : rowGet row 4 = Cell.cpay Payload.pmalformed) :
    process_garmin_hr_record user now row = none := by
  have hj := jsonLoads_malformed row hbad
  have htx := cellText_malformed row hbad
  by_cases hl : 4 ≤ row.length
  · simp [process_garmin_hr_record, hl, hj]
  · simp [process_garmin_hr_record, hl]

theorem process_garmin_stress_record_malformed (user : String) (now : ℚ) (row : Row)
    (hbad : rowGet row 4 = Cell.cpay Payload.pmalformed) :
    process_garmin_stress_record user now row = none := by
  have hj := jsonLoads_malformed row hbad
  have htx := cellText_malformed row hbad
  by_cases hl : 4 ≤ row.length
  · simp [process_garmin_stress_record, hl, hj]
  · simp [process_garmin_stress_record, hl]

theorem process_app_usage_record_malformed (user : String) (now : ℚ) (row : Row)
    (hbad : rowGet row 4 = Cell.cpay Payload.pmalformed) :
    process_app_usage_record user now row = none := by
  have hj := jsonLoads_malformed row hbad
  have htx := cellText_malformed row hbad
  by_cases hl : 4 ≤ row.length
  · cases hts : tsOfCell (rowGet row 2) <;>
      simp [process_app_usage_record, hl, hts, hj]
  · simp [process_app_usage_record, hl]

theorem process_ema_response_record_malformed (user : String) (now : ℚ) (row : Row)
    (hbad : rowGet row 4 = Cell.cpay Payload.pmalformed) :
    process_ema_response_record user now row = none := by
  have hj := jsonLoads_malformed row hbad
  have htx := cellText_malformed row hbad
  by_cases hl : 4 ≤ row.length
  · cases hts : tsOfCell (rowGet row 2) <;>
      simp [process_ema_response_record, hl, hts, hj]
  · simp [process_ema_response_record, hl]

theorem process_ema_status_record_malformed (user : String) (now : ℚ) (row : Row)
    (hbad : rowGet row 4 = Cell.cpay Payload.pmalformed) :
    process_ema_status_record user now row = none := by
  have hj := jsonLoads_malformed row hbad
  have htx := cellText_malformed row hbad
  by_cases hl : 4 ≤ row.length
  · cases hts : tsOfCell (rowGet row 2) <;>
      simp [process_ema_status_record, hl, hts, hj]
  · simp [process_ema_status_record, hl]

theorem process_notification_record_malformed (user : String) (now : ℚ) (row : Row)
    (hbad : rowGet row 4 = Cell.cpay Payload.pmalformed) :
    process_notification_record user now row = none := by
  have hj := jsonLoads_malformed row hbad
  have htx := cellText_malformed row hbad
  by_cases hl : 4 ≤ row.length
  · cases hts : tsOfCell (rowGet row 2) <;>
      simp [process_notification_record, hl, hts, hj]
  · simp [process_notification_record, hl]

theorem process_event_by_id_malformed (user : String) (now : ℚ) (row : Row)
    (hid : isMappedEventId (rowGet row 3))
    (hbad : rowGet row 4 = Cell.cpay Payload.pmalformed) :
    process_event_by_id user now row (rowGet row 3) = none := by
  unfold process_event_by_id
  by_cases c1 : rowGet row 3 = Cell.cnum 152 ∨ rowGet row 3 = Cell.cnum 151
  · rw [if_pos c1]
    exact process_location_record_malformed user now row hbad
  · rw [if_neg c1]
    by_cases c2 : rowGet row 3 = Cell.cnum 16
    · rw [if_pos c2]
      exact process_activity_record_malformed user now row hbad
    · rw [if_neg c2]
      by_cases c3 : rowGet row 3 = Cell.cnum 21
      · rw [if_pos c3]
        exact process_steps_record_malformed user now row hbad
      · rw [if_neg c3]
        by_cases c4 : rowGet row 3 = Cell.cnum 11 ∨ rowGet row 3 = Cell.cnum 111
        · rw [if_pos c4]
          exact process_battery_record_malformed user now row hbad
        · rw [if_neg c4]
          by_cases c5 : rowGet row 3 = Cell.cnum 18 ∨ rowGet row 3 = Cell.cnum 181
          · rw [if_pos c5]
            exact process_wifi_record_malformed user now row hbad
          · rw [if_neg c5]
            by_cases c6 : rowGet row 3 = Cell.cnum 19
            · rw [if_pos c6]
              exact process_bluetooth_record_malformed user now row hbad
            · rw [if_neg c6]
              by_cases c7 : rowGet row 3 = Cell.cnum 13
              · rw [if_pos c7]
                exact process_brightness_record_malformed user now row hbad
              · rw [if_neg c7]
                by_cases c8 : rowGet row 3 = Cell.cnum 14
                · rw [if_pos c8]
                  exact process_lock_unlock_record_malformed user now row hbad
                · rw [if_neg c8]
                  by_cases c9 : rowGet row 3 = Cell.cnum 447
                  · rw [if_pos c9]
                    exact process_accelerometer_record_malformed user now row hbad
                  · rw [if_neg c9]
                    by_cases c10 : rowGet row 3 = Cell.cnum 23
                    · rw [if_pos c10]
                      exact process_calllog_record_malformed user now row hbad
                    · rw [if_neg c10]
                      by_cases c11 : rowGet row 3 = Cell.cnum 442
                      · rw [if_pos c11]
                        exact process_garmin_hr_record_malformed user now row hbad
                      · rw [if_neg c11]
                        by_cases c12 : rowGet row 3 = Cell.cnum 443
                        · rw [if_pos c12]
                          exact process_garmin_stress_record_malformed user now row hbad
                        · rw [if_neg c12]
                          by_cases c13 : rowGet row 3 = Cell.cnum 501
                          · rw [if_pos c13]
                            exact process_app_usage_record_malformed user now row hbad
                          · rw [if_neg c13]
                            by_cases c14 : rowGet row 3 = Cell.cnum 502
                            · rw [if_pos c14]
                              exact process_ema_response_record_malformed user now row hbad
                            · rw [if_neg c14]
                              by_cases c15 : rowGet row 3 = Cell.cnum 503
                              · rw [if_pos c15]
                                exact process_ema_status_record_malformed user now row hbad
                              · rw [if_neg c15]
                                by_cases c16 : rowGet row 3 = Cell.cnum 504
                                · rw [if_pos c16]
                                  exact process_notification_record_malformed user now row hbad
                                · rw [if_neg c16]
                                  exact absurd hid (by unfold isMappedEventId; tauto)

/-- Claim C4 amended: every raw row carrying a malformed payload — whatever
its mapped type code, i.e. in whichever type-specific handler it lands — is
caught per record and logged, and the record is dropped entirely: no record
is persisted to any destination collection, including the unknown-events
sink, and processing of the remaining rows continues unaffected. -/
theorem malformed_payload_dropped (user : String) (now : ℚ) (row : Row)
    (pre post : List Row) (hlen : 5 ≤ row.length)
    (hid : isMappedEventId (rowGet row 3))
    (hbad : rowGet row 4 = Cell.cpay Payload.pmalformed) :
    process_row user now row = [] ∧
    process_rows user now (pre ++ row :: post) =
      process_rows user now pre ++ process_rows user now post := by
  have hge4 : 4 ≤ row.length := le_trans (by norm_num) hlen
  have hall := process_event_by_id_malformed user now row hid hbad
  have hrow : process_row user now row = [] := by
    simp [process_row, hge4, hall]
  refine ⟨hrow, ?_⟩
  simp [process_rows, hrow]

theorem malformed_payload_dropped_witness :
    process_row "u2" 0 [Cell.cstr "a", Cell.cstr "b", Cell.cnum 1690000001,
      Cell.cnum 21, Cell.cpay Payload.pmalformed] = [] ∧
    process_rows "u2" 0 ([[Cell.cstr "a", Cell.cstr "b", Cell.cnum 1690000001,
        Cell.cnum 999, Cell.cpay (Payload.pobj [])]] ++
      [Cell.cstr "a", Cell.cstr "b", Cell.cnum 1690000001, Cell.cnum 21,
        Cell.cpay Payload.pmalformed] :: []) =
      process_rows "u2" 0 [[Cell.cstr "a", Cell.cstr "b", Cell.cnum 1690000001,
        Cell.cnum 999, Cell.cpay (Payload.pobj [])]] ++ process_rows "u2" 0 [] :=
  malformed_payload_dropped "u2" 0
    [Cell.cstr "a", Cell.cstr "b", Cell.cnum 1690000001, Cell.cnum 21,
      Cell.cpay Payload.pmalformed]
    [[Cell.cstr "a", Cell.cstr "b", Cell.cnum 1690000001, Cell.cnum 999,
      Cell.cpay (Payload.pobj [])]] []
    (by decide) (by decide) (by decide)

/-- Claim C10: a raw row with fewer than 4 elements is skipped silently —
no record is persisted to any collection, not even the unknown-events sink,
and no error is raised; likewise a row with an unmapped type code but fewer
than 5 elements is silently dropped rather than stored as an Unknown
record. -/
theorem short_row_dropped (user : String) (now : ℚ) (row : Row) :
    (row.length < 4 → process_row user now row = []) ∧
    (row.length < 5 → ¬ isMappedEventId (rowGet row 3) →
      process_row user now row = []) := by
  constructor
  · intro h
    have hne : ¬ (4 ≤ row.length) := by omega
    simp [process_row, hne]
  · intro h5 hun
    by_cases h4 : 4 ≤ row.length
    · have hunk : process_unknown_event_record user now row (rowGet row 3) = none := by
        have : ¬ (5 ≤ row.length) := by omega
        simp [process_unknown_event_record, this]
      simp only [isMappedEventId, not_or] at hun
      obtain ⟨h152, h151, h16, h21, h11, h111, h18, h181, h19, h13, h14, h447,
        h23, h442, h443, h501, h502, h503, h504⟩ := hun
      simp [process_row, h4, process_event_by_id, h152, h151, h16, h21, h11, h111,
        h18, h181, h19, h13, h14, h447, h23, h442, h443, h501, h502, h503, h504, hunk]
    · simp [process_row, h4]

theorem short_row_dropped_witness :
    process_row "u3" 0 [Cell.cstr "a", Cell.cnum 7] = [] ∧
    process_row "u3" 0 [Cell.cstr "a", Cell.cstr "b", Cell.cnum 1690000002,
      Cell.cnum 999] = [] :=
  ⟨(short_row_dropped "u3" 0 [Cell.cstr "a", Cell.cnum 7]).1 (by decide),
   (short_row_dropped "u3" 0 [Cell.cstr "a", Cell.cstr "b", Cell.cnum 1690000002,
      Cell.cnum 999]).2 (by decide) (by decide)⟩

end StudyBackend
